import Mathlib

/-!
Shallow embedding of the jexi audio backend (Python) in Lean 4.

The embedding covers the content classifier (`src/models/classifier.py`),
the YAMNet wrapper (`src/models/yamnet_classifier.py`), the two pipeline
runners (`src/models/music_processor.py`, `src/models/speech_processor.py`)
and the background-job wrappers in `src/app.py`.

Modelling conventions:
* real-valued audio quantities are rationals (ℚ);
* Python dictionaries keyed by strings become association lists with
  overwrite-on-insert lookup semantics;
* calls into external engines (librosa, Demucs, Whisper, DeepFilterNet,
  soundfile, YAMNet) are oracle fields of an environment record, of type
  `Except String α`: `.error e` models the call raising an exception with
  message `e`, `.ok v` models it returning `v`;
* Python `try/except` blocks become `match` on those oracle results;
* timestamps (`datetime.now()`) are an abstract `Nat` drawn from the
  environment.
-/

namespace Jexi

/-- The two classification labels the system produces. -/
inductive Label where
  | music
  | speech
deriving DecidableEq, Repr

/-- The other label. -/
def Label.other : Label → Label
  | .music => .speech
  | .speech => .music

/-- Feature vector produced by `AudioClassifier._extract_features`
(src/models/classifier.py, lines 110-140): per-segment scalar statistics. -/
structure FeatureVector where
  spectral_centroid_mean : ℚ
  spectral_centroid_std : ℚ
  zcr_mean : ℚ
  zcr_std : ℚ
  spectral_rolloff_mean : ℚ
  mfcc_mean : ℚ
  mfcc_std : ℚ
  tempo : ℚ
  beat_strength : ℚ
  spectral_bandwidth_mean : ℚ
  rms_std : ℚ
deriving DecidableEq, Repr

/-- Accumulated (music_score, speech_score) of
`AudioClassifier._make_decision` (src/models/classifier.py, lines 158-216).
Each `if/elif` chain of the source is translated rule by rule, with the
exact thresholds and weights of the code. -/
def decision_scores (f : FeatureVector) : Nat × Nat :=
  let ms : Nat := 0
  let ss : Nat := 0
  -- Zero Crossing Rate
  let (ms, ss) :=
    if f.zcr_mean > 15/100 then (ms, ss + 3)
    else if f.zcr_mean < 8/100 then (ms + 3, ss)
    else (ms, ss)
  -- Beat strength
  let (ms, ss) :=
    if f.beat_strength > 2 then (ms + 4, ss)
    else if f.beat_strength < 6/10 then (ms, ss + 3)
    else if f.beat_strength < 1 then (ms, ss + 1)
    else (ms, ss)
  -- Spectral Rolloff
  let (ms, ss) :=
    if f.spectral_rolloff_mean > 6000 then (ms + 2, ss)
    else if f.spectral_rolloff_mean < 3000 then (ms, ss + 2)
    else (ms, ss)
  -- Spectral Centroid
  let (ms, ss) :=
    if f.spectral_centroid_mean < 1800 then (ms, ss + 2)
    else if f.spectral_centroid_mean > 3500 then (ms + 2, ss)
    else (ms, ss)
  -- Spectral Centroid Variance
  let (ms, ss) :=
    if f.spectral_centroid_std > 1200 then
      if f.zcr_mean > 15/100 then (ms, ss + 1) else (ms + 1, ss)
    else (ms, ss)
  -- Spectral Bandwidth
  let (ms, ss) :=
    if f.spectral_bandwidth_mean > 2000 then (ms + 1, ss)
    else if f.spectral_bandwidth_mean < 1200 then (ms, ss + 1)
    else (ms, ss)
  -- RMS Energy variation
  let (ms, ss) :=
    if f.rms_std < 3/100 then (ms + 2, ss)
    else if f.rms_std > 7/100 then (ms, ss + 2)
    else (ms, ss)
  -- MFCC Std
  let (ms, ss) :=
    if f.mfcc_std > 100 then (ms, ss + 2)
    else if f.mfcc_std > 40 then (ms + 1, ss)
    else (ms, ss)
  -- Tempo check
  let (ms, ss) :=
    if f.tempo < 60 ∨ f.tempo > 200 then (ms, ss + 1)
    else if 80 ≤ f.tempo ∧ f.tempo ≤ 180 then (ms + 1, ss)
    else (ms, ss)
  (ms, ss)

/-- `music_score` accumulated by `_make_decision`. -/
def music_score (f : FeatureVector) : Nat := (decision_scores f).1

/-- `speech_score` accumulated by `_make_decision`. -/
def speech_score (f : FeatureVector) : Nat := (decision_scores f).2

/-- `AudioClassifier._make_decision` (src/models/classifier.py,
lines 220-223): final comparison of the two scores. -/
def make_decision (f : FeatureVector) : Label :=
  if music_score f > speech_score f then .music else .speech

/-- `clip_length = 30` (src/models/classifier.py, line 44). -/
def clip_length : ℚ := 30

/-- Sampling-point selection of `AudioClassifier.classify`
(src/models/classifier.py, lines 45-57). -/
def points_to_check (duration : ℚ) : List ℚ :=
  if duration < clip_length then
    [0]
  else if duration < 90 then
    [0, duration / 2 - clip_length / 2]
  else
    [0, duration / 2 - clip_length / 2, max 0 (duration - clip_length)]

/-- Keys of `collections.Counter(decisions)` in iteration (= insertion
= first-occurrence) order, as iterated by `most_common`. -/
def counterKeys : List Label → List Label
  | [] => []
  | d :: rest => d :: (counterKeys rest).filter (fun k => k ≠ d)

/-- `Counter(decisions)` (src/models/classifier.py, line 95): mapping from
label to vote count, iterated in insertion order. -/
def vote_count (decisions : List Label) : List (Label × Nat) :=
  (counterKeys decisions).map (fun k => (k, decisions.count k))

/-- `vote_count.most_common(1)[0]` (src/models/classifier.py, line 96).
CPython implements `most_common(n)` with `heapq.nlargest`, which is stable:
on equal counts the item appearing first in iteration order wins.  The fold
below keeps the current best unless a *strictly* larger count appears. -/
def most_common1 (items : List (Label × Nat)) : Option (Label × Nat) :=
  items.foldl
    (fun best p =>
      match best with
      | none => some p
      | some q => if p.2 > q.2 then some p else some q)
    none

/-- The final voted classification of `AudioClassifier.classify`
(src/models/classifier.py, lines 94-96); `none` models the `IndexError`
that `[0]` would raise on an empty decision list (never reached, since
at least one sampling point always exists). -/
def final_decision (decisions : List Label) : Option Label :=
  (most_common1 (vote_count decisions)).map (fun p => p.1)

/-- Oracle environment for `AudioClassifier.classify`
(src/models/classifier.py, lines 27-108): outcomes of the external calls.
`duration_result` models format conversion plus `librosa.get_duration`
(an exception in either surfaces here); `features_at t` models
`librosa.load(offset=t)` followed by `_extract_features`. -/
structure ClassifierEnv where
  duration_result : Except String ℚ
  features_at : ℚ → Except String FeatureVector

/-- `AudioClassifier.classify` (src/models/classifier.py, lines 27-108):
sample at 1-3 points, decide per sample, take the majority vote; the
enclosing `try/except` returns `None` (here `none`) if any external call
raises. -/
def classifier_classify (env : ClassifierEnv) : Option Label :=
  match env.duration_result with
  | .error _ => none
  | .ok duration =>
    match (points_to_check duration).mapM
        (fun t => (env.features_at t).map make_decision) with
    | .error _ => none
    | .ok decisions => final_decision decisions

/-- Result record of `YAMNetClassifier.classify`
(src/models/yamnet_classifier.py): classification, confidence and the top
predictions, as returned when no exception occurs. -/
structure YamnetResult where
  classification : Label
  confidence : ℚ
  top_predictions : List (String × ℚ)
deriving DecidableEq, Repr

/-- `YAMNetClassifier.classify` (src/models/yamnet_classifier.py,
lines 77-130), coarse model: the whole `try` body (conversion, decode,
inference, categorisation) is one oracle; the `except` branch returns
`None` (here `none`). -/
def yamnet_classify (result : Except String YamnetResult) : Option YamnetResult :=
  match result with
  | .ok r => some r
  | .error _ => none

/-- Mean of the squared samples of a stem tensor, i.e.
`torch.mean(stem_tensor ** 2)` in `MusicProcessor._check_stem_activity`
(src/models/music_processor.py, line 218), with the tensor flattened to a
sample list. -/
def mean_square (samples : List ℚ) : ℚ :=
  (samples.map (fun x => x * x)).sum / samples.length

/-- `MusicProcessor._check_stem_activity` (src/models/music_processor.py,
lines 207-224).  The source computes `rms = sqrt(mean_square)` and tests
`rms > 0.01`; since both sides are non-negative this is equivalent to
`mean_square > 0.01 ** 2`, which is how the test is carried out here so the
definition stays within ℚ. -/
def check_stem_activity (samples : List ℚ) : Bool :=
  mean_square samples > (1/100) * (1/100)

/-- The condition `_check_stem_activity` tests, stated as in the source:
the root-mean-square amplitude exceeds the 0.01 threshold. -/
def rms_exceeds_threshold (samples : List ℚ) : Prop :=
  Real.sqrt (mean_square samples) > 1/100

/-- Python `%` (modulo) on rationals with a positive divisor:
`a % b = a - b * floor(a / b)`. -/
def pymod (a b : ℚ) : ℚ := a - b * ⌊a / b⌋

/-- Zero-padded 2-digit rendering, i.e. Python `f"{n:02d}"` for `n ≥ 0`. -/
def pad2 (n : Nat) : String :=
  if n < 10 then "0" ++ toString n else toString n

/-- Zero-padded 3-digit rendering, i.e. Python `f"{n:03d}"` for `n ≥ 0`. -/
def pad3 (n : Nat) : String :=
  if n < 10 then "00" ++ toString n
  else if n < 100 then "0" ++ toString n
  else toString n

/-- `SpeechProcessor._format_timestamp_srt` (src/models/speech_processor.py,
lines 361-368).  `int(x)` on the non-negative intermediate values of the
source truncates, which for non-negative arguments is the floor taken
here. -/
def format_timestamp_srt (seconds : ℚ) : String :=
  let hours := (⌊seconds / 3600⌋).toNat
  let minutes := (⌊pymod seconds 3600 / 60⌋).toNat
  let secs := (⌊pymod seconds 60⌋).toNat
  let millis := (⌊pymod seconds 1 * 1000⌋).toNat
  pad2 hours ++ ":" ++ pad2 minutes ++ ":" ++ pad2 secs ++ "," ++ pad3 millis

/-! ### Dictionaries

Python `dict` operations used by the job registry, progress tracker and
result store, modelled as association lists with overwrite-on-insert
lookup semantics. -/

/-- `m[k] = v` on a Python dict: overwrite any previous binding. -/
def dict_set {α : Type} (k : String) (v : α) (m : List (String × α)) :
    List (String × α) :=
  (k, v) :: m.filter (fun p => p.1 ≠ k)

/-- `m.get(k, None)` on a Python dict. -/
def dict_get {α : Type} (k : String) (m : List (String × α)) : Option α :=
  (m.find? (fun p => p.1 = k)).map (fun p => p.2)

/-- `if k in m: del m[k]` on a Python dict. -/
def dict_del {α : Type} (k : String) (m : List (String × α)) :
    List (String × α) :=
  m.filter (fun p => p.1 ≠ k)

/-- One entry of `self.current_progress` (`_update_progress` in either
processor): percent (or the -1 error sentinel), message and timestamp. -/
structure ProgressRecord where
  percent : Int
  message : String
  updated_at : Nat
deriving DecidableEq, Repr

/-- Transcript dictionary built by `SpeechProcessor.transcribe_speech`:
plain text, `(start, end, text)` segments and word count. -/
structure Transcript where
  plain : String
  segments : List (ℚ × ℚ × String)
  word_count : Nat
deriving DecidableEq, Repr

/-- Metadata record persisted by `SpeechProcessor.process`; optional fields
are present only in the completed shape, `error` only in the failed one. -/
structure SpeechMeta where
  job_id : String
  status : String
  content_type : Option String
  duration : Option String
  transcript : Option Transcript
  clean_audio_path : Option String
  error : Option String
  processed_at : Nat
deriving DecidableEq, Repr

/-- Mutable state of a `SpeechProcessor` plus the files it writes:
the in-memory progress dict, the per-job `metadata.json` records and the
per-job `clean_audio.wav` sample data. -/
structure SpeechState where
  current_progress : List (String × ProgressRecord)
  metadata_store : List (String × SpeechMeta)
  saved_audio : List (String × List ℚ)
deriving DecidableEq, Repr

/-- Oracle environment for one `SpeechProcessor.process` run: outcomes of
the external calls.  `loaded` is `librosa.load`, `suppressed` is the
DeepFilterNet enhancement inside `reduce_noise`, `transcribed` is Whisper
inside `transcribe_speech` (already shaped into the transcript dict),
`write_ok` is `sf.write` inside `save_audio`; `duration` is
`librosa.get_duration` and `time` stands for `datetime.now()`. -/
structure SpeechEnv where
  loaded : Except String (List ℚ)
  duration : ℚ
  suppressed : Except String (List ℚ)
  transcribed : Except String Transcript
  write_ok : Except String Unit
  time : Nat

/-- `SpeechProcessor.reduce_noise` (src/models/speech_processor.py,
lines 129-168): return the enhanced audio, or fall back to the original
`audio` argument if the enhancement raises. -/
def reduce_noise (env : SpeechEnv) (audio : List ℚ) : List ℚ :=
  match env.suppressed with
  | .ok clean_audio => clean_audio
  | .error _ => audio

/-- `SpeechProcessor.transcribe_speech` (src/models/speech_processor.py,
lines 170-225): Whisper result shaped into the transcript dict, with the
empty-text fallback and the exception fallback of the source. -/
def transcribe_speech (r : Except String Transcript) : Transcript :=
  match r with
  | .ok t => if t.plain = "" then ⟨"No speech detected", [], 0⟩ else t
  | .error _ => ⟨"Transcription failed", [], 0⟩

/-- `np.max(np.abs(audio))` over a sample list. -/
def np_max_abs (audio : List ℚ) : ℚ :=
  (audio.map (fun x => |x|)).foldl max 0

/-- The normalisation step of `SpeechProcessor.save_audio`
(src/models/speech_processor.py, line 230):
`audio / np.max(np.abs(audio))`.  (For all-zero input numpy produces
non-finite values without raising; in ℚ division by zero yields 0.) -/
def normalize_audio (audio : List ℚ) : List ℚ :=
  audio.map (fun x => x / np_max_abs audio)

/-- `f"{int(d // 60)}:{int(d % 60):02d}"` duration rendering used in both
processors' completed metadata. -/
def duration_str (d : ℚ) : String :=
  toString (⌊d / 60⌋).toNat ++ ":" ++ pad2 (⌊pymod d 60⌋).toNat

/-- `_update_progress` of `SpeechProcessor`. -/
def speech_update_progress (st : SpeechState) (job_id : String)
    (percent : Int) (message : String) (time : Nat) : SpeechState :=
  { st with current_progress :=
      dict_set job_id ⟨percent, message, time⟩ st.current_progress }

/-- `_clear_progress` of `SpeechProcessor`. -/
def speech_clear_progress (st : SpeechState) (job_id : String) : SpeechState :=
  { st with current_progress := dict_del job_id st.current_progress }

/-- `get_progress` of `SpeechProcessor`. -/
def speech_get_progress (st : SpeechState) (job_id : String) :
    Option ProgressRecord :=
  dict_get job_id st.current_progress

/-- `save_metadata` of `SpeechProcessor`. -/
def speech_save_metadata (st : SpeechState) (job_id : String)
    (meta : SpeechMeta) : SpeechState :=
  { st with metadata_store := dict_set job_id meta st.metadata_store }

/-- The `except` handler of `SpeechProcessor.process`
(src/models/speech_processor.py, lines 110-127): progress set to the -1
sentinel, failure metadata persisted and returned. -/
def speech_fail_handler (job_id e : String) (time : Nat) (st : SpeechState) :
    SpeechMeta × SpeechState :=
  let st := speech_update_progress st job_id (-1) ("Error: " ++ e) time
  let meta : SpeechMeta :=
    { job_id := job_id, status := "failed", content_type := none,
      duration := none, transcript := none, clean_audio_path := none,
      error := some e, processed_at := time }
  let st := speech_save_metadata st job_id meta
  (meta, st)

/-- `SpeechProcessor.process` (src/models/speech_processor.py,
lines 33-127), stage by stage in source order; every external-call outcome
is drawn from `env`, and any raising stage transfers control to
`speech_fail_handler`. -/
def speech_process (env : SpeechEnv) (job_id : String) (st : SpeechState) :
    SpeechMeta × SpeechState :=
  let st := speech_update_progress st job_id 0
    "Starting speech processing..." env.time
  let st := speech_update_progress st job_id 10
    "Loading audio file..." env.time
  match env.loaded with
  | .error e => speech_fail_handler job_id e env.time st
  | .ok audio =>
    let st := speech_update_progress st job_id 25
      "Cleaning audio with AI noise reduction..." env.time
    let clean_audio := reduce_noise env audio
    let st := speech_update_progress st job_id 50
      "Transcribing speech to text..." env.time
    let transcript := transcribe_speech env.transcribed
    let st := speech_update_progress st job_id 85
      "Transcription complete!" env.time
    let st := speech_update_progress st job_id 90
      "Saving processed audio..." env.time
    match env.write_ok with
    | .error e => speech_fail_handler job_id e env.time st
    | .ok _ =>
      let st := { st with
        saved_audio :=
          dict_set job_id (normalize_audio clean_audio) st.saved_audio }
      let meta : SpeechMeta :=
        { job_id := job_id, status := "completed",
          content_type := some "speech",
          duration := some (duration_str env.duration),
          transcript := some transcript,
          clean_audio_path :=
            some ("processed/" ++ job_id ++ "/clean_audio.wav"),
          error := none, processed_at := env.time }
      let st := speech_save_metadata st job_id meta
      let st := speech_update_progress st job_id 100
        "Processing complete!" env.time
      let st := speech_clear_progress st job_id
      (meta, st)

/-- Lyrics dictionary built by `MusicProcessor.transcribe_lyrics`. -/
structure Lyrics where
  plain : String
  timestamped : List (ℚ × ℚ × String)
deriving DecidableEq, Repr

/-- `MusicProcessor.transcribe_lyrics` (src/models/music_processor.py,
lines 226-267): Whisper result shaped into the lyrics dict, with the
empty-text fallback and the exception fallback of the source. -/
def transcribe_lyrics (r : Except String Lyrics) : Lyrics :=
  match r with
  | .ok l =>
    if l.plain = "" then
      ⟨"No lyrics detected (instrumental or unclear vocals)", []⟩
    else l
  | .error _ => ⟨"Transcription failed", []⟩

/-- Result of `MusicProcessor.analyze_audio` (src/models/music_processor.py,
lines 269-304). -/
structure MusicAnalysis where
  key : String
  bpm : Int
  duration : String
  sample_rate : Nat
deriving DecidableEq, Repr

/-- One value of the `stem_paths` dict built by
`MusicProcessor.separate_stems`. -/
structure StemInfo where
  path : String
  active : Bool
deriving DecidableEq, Repr

/-- `stem_names` (src/models/music_processor.py, line 185). -/
def stem_names : List String :=
  ["drums", "bass", "other", "vocals", "guitar", "piano"]

/-- The per-stem loop of `MusicProcessor.separate_stems`
(src/models/music_processor.py, lines 188-205): save each source tensor and
record its activity flag from `_check_stem_activity`. -/
def build_stem_paths (stems_dir : String) (sources : List (List ℚ)) :
    List (String × StemInfo) :=
  (stem_names.zip sources).map
    (fun p => (p.1, ⟨stems_dir ++ "/" ++ p.1 ++ ".wav",
                     check_stem_activity p.2⟩))

/-- Metadata record persisted by `MusicProcessor.process`; optional fields
are present only in the completed shape, `error` only in the failed one. -/
structure MusicMeta where
  job_id : String
  status : String
  content_type : Option String
  key : Option String
  bpm : Option Int
  duration : Option String
  sample_rate : Option Nat
  lyrics : Option Lyrics
  stems : Option (List (String × StemInfo))
  error : Option String
  processed_at : Nat
deriving DecidableEq, Repr

/-- Mutable state of a `MusicProcessor`: the in-memory progress dict and
the per-job `metadata.json` records. -/
structure MusicState where
  current_progress : List (String × ProgressRecord)
  metadata_store : List (String × MusicMeta)
deriving DecidableEq, Repr

/-- Oracle environment for one `MusicProcessor.process` run.  `sources` is
the stem separation (`torchaudio.load` + `apply_model` + per-stem
`save_audio`, any exception there surfacing here as `.error`);
`transcribed` is Whisper inside `transcribe_lyrics` (caught internally);
`analyzed` is `analyze_audio` (librosa calls); `time` stands for
`datetime.now()`. -/
structure MusicEnv where
  sources : Except String (List (List ℚ))
  transcribed : Except String Lyrics
  analyzed : Except String MusicAnalysis
  time : Nat

/-- `_update_progress` of `MusicProcessor`. -/
def music_update_progress (st : MusicState) (job_id : String)
    (percent : Int) (message : String) (time : Nat) : MusicState :=
  { st with current_progress :=
      dict_set job_id ⟨percent, message, time⟩ st.current_progress }

/-- `_clear_progress` of `MusicProcessor`. -/
def music_clear_progress (st : MusicState) (job_id : String) : MusicState :=
  { st with current_progress := dict_del job_id st.current_progress }

/-- `get_progress` of `MusicProcessor`. -/
def music_get_progress (st : MusicState) (job_id : String) :
    Option ProgressRecord :=
  dict_get job_id st.current_progress

/-- `save_metadata` of `MusicProcessor`. -/
def music_save_metadata (st : MusicState) (job_id : String)
    (meta : MusicMeta) : MusicState :=
  { st with metadata_store := dict_set job_id meta st.metadata_store }

/-- The `except` handler of `MusicProcessor.process`
(src/models/music_processor.py, lines 114-131): progress set to the -1
sentinel, failure metadata persisted and returned. -/
def music_fail_handler (job_id e : String) (time : Nat) (st : MusicState) :
    MusicMeta × MusicState :=
  let st := music_update_progress st job_id (-1) ("Error: " ++ e) time
  let meta : MusicMeta :=
    { job_id := job_id, status := "failed", content_type := none,
      key := none, bpm := none, duration := none, sample_rate := none,
      lyrics := none, stems := none, error := some e, processed_at := time }
  let st := music_save_metadata st job_id meta
  (meta, st)

/-- `MusicProcessor.process` (src/models/music_processor.py, lines 35-131),
stage by stage in source order, with the progress updates that
`separate_stems` itself performs inlined; any raising stage transfers
control to `music_fail_handler`. -/
def music_process (env : MusicEnv) (job_id : String) (st : MusicState) :
    MusicMeta × MusicState :=
  let st := music_update_progress st job_id 0
    "Starting processing..." env.time
  let st := music_update_progress st job_id 10
    "Separating audio stems..." env.time
  let st := music_update_progress st job_id 20
    "Processing audio with Demucs AI..." env.time
  match env.sources with
  | .error e => music_fail_handler job_id e env.time st
  | .ok sources =>
    let st := music_update_progress st job_id 60
      "Saving separated stems..." env.time
    let stems_dir := "processed/" ++ job_id ++ "/stems"
    let stem_paths := build_stem_paths stems_dir sources
    let st := music_update_progress st job_id 70
      "Stems separated successfully!" env.time
    let st := music_update_progress st job_id 75
      "Transcribing lyrics..." env.time
    let lyrics := transcribe_lyrics env.transcribed
    let st := music_update_progress st job_id 90
      "Lyrics transcribed!" env.time
    let st := music_update_progress st job_id 95
      "Analyzing audio properties..." env.time
    match env.analyzed with
    | .error e => music_fail_handler job_id e env.time st
    | .ok analysis =>
      let st := music_update_progress st job_id 100
        "Processing complete!" env.time
      let meta : MusicMeta :=
        { job_id := job_id, status := "completed",
          content_type := some "music", key := some analysis.key,
          bpm := some analysis.bpm, duration := some analysis.duration,
          sample_rate := some analysis.sample_rate,
          lyrics := some lyrics, stems := some stem_paths,
          error := none, processed_at := env.time }
      let st := music_save_metadata st job_id meta
      let st := music_clear_progress st job_id
      (meta, st)

/-- One entry of the `processing_jobs` dict in `src/app.py`. -/
structure JobInfo where
  status : String
  content_type : String
  error : Option String
deriving DecidableEq, Repr

/-- The process-wide mutable state touched by the background wrappers in
`src/app.py`: the in-memory `processing_jobs` registry plus the states of
the two processor instances. -/
structure AppState where
  processing_jobs : List (String × JobInfo)
  music_st : MusicState
  speech_st : SpeechState
deriving DecidableEq, Repr

/-- `process_music_background` (src/app.py, lines 185-191).  In the model
`music_process` is a total function, so the wrapper's `except` branch
(which would record an in-memory failed status) is unreachable and the
wrapper always records `completed`. -/
def process_music_background (env : MusicEnv) (job_id : String)
    (app : AppState) : AppState :=
  let r := music_process env job_id app.music_st
  { app with music_st := r.2,
             processing_jobs :=
               dict_set job_id ⟨"completed", "music", none⟩
                 app.processing_jobs }

/-- `process_speech_background` (src/app.py, lines 193-199); same shape as
the music wrapper. -/
def process_speech_background (env : SpeechEnv) (job_id : String)
    (app : AppState) : AppState :=
  let r := speech_process env job_id app.speech_st
  { app with speech_st := r.2,
             processing_jobs :=
               dict_set job_id ⟨"completed", "speech", none⟩
                 app.processing_jobs }

/-! ### Helper lemmas -/

/-- Overwriting a key then reading it back yields the written value. -/
lemma dict_get_set {α : Type} (k : String) (v : α) (m : List (String × α)) :
    dict_get k (dict_set k v m) = some v := by
  simp [dict_get, dict_set]

/-- Reading a key after deleting it yields nothing. -/
lemma dict_get_del {α : Type} (k : String) (m : List (String × α)) :
    dict_get k (dict_del k m) = none := by
  simp [dict_get, dict_del]

/-! ### Claims -/

/-- C1: the classifier chooses exactly one sampling point (offset 0) for
duration < 30 s, exactly two (0 and d/2 - 15) for 30 s ≤ d < 90 s, and
exactly three (0, d/2 - 15 and max 0 (d - 30)) otherwise; every chosen
offset is non-negative and satisfies offset + 30 ≤ d or is 0. -/
theorem sampling_points_spec (d : ℚ) :
    (d < 30 → points_to_check d = [0]) ∧
    (30 ≤ d → d < 90 → points_to_check d = [0, d / 2 - 15]) ∧
    (90 ≤ d → points_to_check d = [0, d / 2 - 15, max 0 (d - 30)]) ∧
    (∀ o ∈ points_to_check d, 0 ≤ o ∧ (o + 30 ≤ d ∨ o = 0)) := by
  simp only [points_to_check, clip_length]
  refine ⟨fun h => ?_, fun h1 h2 => ?_, fun h => ?_, ?_⟩
  · rw [if_pos h]
  · rw [if_neg (not_lt.mpr h1), if_pos h2]
    norm_num
  · rw [if_neg (not_lt.mpr (by linarith)), if_neg (not_lt.mpr h)]
    norm_num
  · intro o ho
    split_ifs at ho with h1 h2
    · simp only [List.mem_singleton] at ho
      subst ho
      exact ⟨le_refl 0, Or.inr rfl⟩
    · simp only [List.mem_cons, List.mem_singleton, List.not_mem_nil,
        or_false] at ho
      have h30 : 30 ≤ d := not_lt.mp h1
      rcases ho with rfl | rfl
      · exact ⟨le_refl 0, Or.inr rfl⟩
      · exact ⟨by linarith, Or.inl (by linarith)⟩
    · simp only [List.mem_cons, List.mem_singleton, List.not_mem_nil,
        or_false] at ho
      have h90 : 90 ≤ d := not_lt.mp h2
      rcases ho with rfl | rfl | rfl
      · exact ⟨le_refl 0, Or.inr rfl⟩
      · exact ⟨by linarith, Or.inl (by linarith)⟩
      · have hm : max 0 (d - 30) = d - 30 := max_eq_right (by linarith)
        exact ⟨le_max_left _ _, Or.inl (by rw [hm]; linarith)⟩

/-- Witness for C1 at duration 100 s (long-audio branch) and its end
offset 70. -/
theorem sampling_points_spec_witness :
    points_to_check 100 = [0, 100 / 2 - 15, max 0 (100 - 30)] ∧
    (0 ≤ (70 : ℚ) ∧ ((70 : ℚ) + 30 ≤ 100 ∨ (70 : ℚ) = 0)) :=
  ⟨(sampling_points_spec 100).2.2.1 (by norm_num),
   (sampling_points_spec 100).2.2.2 70 (by
     norm_num [points_to_check, clip_length])⟩

/-- C4: the per-sample decision is "music" exactly when the accumulated
music score strictly exceeds the accumulated speech score, and "speech"
otherwise; equal scores yield "speech". -/
theorem make_decision_spec (f : FeatureVector) :
    (make_decision f = .music ↔ music_score f > speech_score f) ∧
    (make_decision f = .speech ↔ music_score f ≤ speech_score f) ∧
    (music_score f = speech_score f → make_decision f = .speech) := by
  unfold make_decision
  refine ⟨?_, ?_, fun h => ?_⟩
  · split_ifs with h <;> simp [h]
  · split_ifs with h <;> simp [h] <;> omega
  · rw [if_neg (by omega)]

/-- A feature vector that fires no scoring rule, so both scores are 0. -/
def neutral_features : FeatureVector :=
  ⟨2500, 1000, 1/10, 0, 4000, 0, 30, 70, 3/2, 1500, 1/20⟩

/-- Witness for C4: on `neutral_features` both scores are equal (both 0)
and the decision is "speech". -/
theorem make_decision_spec_witness :
    music_score neutral_features = speech_score neutral_features ∧
    make_decision neutral_features = .speech :=
  ⟨by norm_num [music_score, speech_score, decision_scores, neutral_features],
   (make_decision_spec neutral_features).2.2
     (by norm_num [music_score, speech_score, decision_scores,
       neutral_features])⟩

/-- C9: SRT timestamp formatting yields the HH:MM:SS,mmm pattern, and
75.4 seconds formats to exactly "00:01:15,400". -/
theorem format_timestamp_spec :
    format_timestamp_srt (754/10) = "00:01:15,400" ∧
    ∀ t : ℚ, ∃ h m s ms : Nat,
      format_timestamp_srt t =
        pad2 h ++ ":" ++ pad2 m ++ ":" ++ pad2 s ++ "," ++ pad3 ms := by
  constructor
  · have h1 : (⌊(754 : ℚ) / 10 / 3600⌋) = 0 := by norm_num
    have h2 : (⌊pymod (754 / 10) 3600 / 60⌋) = 1 := by norm_num [pymod]
    have h3 : (⌊pymod ((754 : ℚ) / 10) 60⌋) = 15 := by norm_num [pymod]
    have h4 : (⌊pymod ((754 : ℚ) / 10) 1 * 1000⌋) = 400 := by
      norm_num [pymod]
    rw [format_timestamp_srt, h1, h2, h3, h4]
    decide
  · intro t
    exact ⟨_, _, _, _, rfl⟩

/-- The mean of the squared samples is non-negative. -/
lemma mean_square_nonneg (s : List ℚ) : 0 ≤ mean_square s := by
  unfold mean_square
  apply div_nonneg
  · apply List.sum_nonneg
    intro y hy
    simp only [List.mem_map] at hy
    obtain ⟨x, _, rfl⟩ := hy
    exact mul_self_nonneg x
  · exact_mod_cast Nat.zero_le _

/-- C8: a stem's active flag is true if and only if the root-mean-square
amplitude of its samples exceeds 0.01, and a stem of all-zero samples is
always inactive. -/
theorem stem_activity_spec (s : List ℚ) :
    (check_stem_activity s = true ↔ rms_exceeds_threshold s) ∧
    ((∀ x ∈ s, x = 0) → check_stem_activity s = false) := by
  constructor
  · unfold check_stem_activity rms_exceeds_threshold
    rw [decide_eq_true_eq, gt_iff_lt, gt_iff_lt,
      Real.lt_sqrt (by norm_num)]
    have hcast : ((1 : ℝ) / 100) ^ 2 = (((1 : ℚ) / 100 * (1 / 100) : ℚ) : ℝ) := by
      push_cast
      ring
    rw [hcast, Rat.cast_lt]
  · intro hz
    have hsum : (s.map (fun x => x * x)).sum = 0 := by
      apply List.sum_eq_zero
      intro y hy
      simp only [List.mem_map] at hy
      obtain ⟨x, hx, rfl⟩ := hy
      rw [hz x hx]
      ring
    unfold check_stem_activity mean_square
    rw [hsum]
    norm_num

/-- Witness for C8: the all-zero stem [0, 0] is inactive, and the stem [1]
is active with RMS above the threshold. -/
theorem stem_activity_spec_witness :
    check_stem_activity [0, 0] = false ∧
    check_stem_activity [1] = true ∧ rms_exceeds_threshold [1] := by
  have h1 : check_stem_activity [1] = true := by
    unfold check_stem_activity mean_square
    norm_num
  refine ⟨(stem_activity_spec [0, 0]).2 ?_, h1,
    (stem_activity_spec [1]).1.mp h1⟩
  intro x hx
  simp only [List.mem_cons, List.not_mem_nil, or_false] at hx
  rcases hx with rfl | rfl <;> rfl

/-- If `mapM` over `Except` succeeds, every element's image succeeded. -/
lemma mapM_ok_forall {α β : Type} {f : α → Except String β} :
    ∀ {l : List α} {b : List β}, l.mapM f = .ok b →
      ∀ a ∈ l, ∃ c, f a = .ok c := by
  intro l
  induction l with
  | nil => simp
  | cons x xs ih =>
    intro b h a ha
    rw [List.mapM_cons] at h
    cases hfx : f x with
    | error e =>
      rw [hfx] at h
      simp only [Bind.bind, Except.bind] at h
      cases h
    | ok c =>
      rw [hfx] at h
      simp only [Bind.bind, Except.bind] at h
      cases hxs : xs.mapM f with
      | error e =>
        rw [hxs] at h
        cases h
      | ok bs =>
        rcases List.mem_cons.mp ha with rfl | ha'
        · exact ⟨c, hfx⟩
        · exact ih hxs a ha'

/-- C6: on a decode failure or a feature-extraction failure, `classify`
returns the failure sentinel `none`, which is distinct from both valid
labels; the YAMNet classifier likewise returns the sentinel when its
inference raises. -/
theorem classify_failure_spec (env : ClassifierEnv) :
    (∀ e, env.duration_result = .error e → classifier_classify env = none) ∧
    (∀ d, env.duration_result = .ok d →
      (∃ t ∈ points_to_check d, ∃ e, env.features_at t = .error e) →
      classifier_classify env = none) ∧
    (∀ e, yamnet_classify (.error e) = none) ∧
    (∀ lbl : Label, (none : Option Label) ≠ some lbl) := by
  refine ⟨fun e he => ?_, fun d hd hex => ?_, fun e => rfl, fun lbl => by simp⟩
  · unfold classifier_classify
    rw [he]
  · unfold classifier_classify
    rw [hd]
    dsimp only
    cases hmap : (points_to_check d).mapM
        (fun t => (env.features_at t).map make_decision) with
    | error e => rfl
    | ok decisions =>
      exfalso
      obtain ⟨t, ht, e, he⟩ := hex
      obtain ⟨c, hc⟩ := mapM_ok_forall hmap t ht
      rw [he] at hc
      simp only [Except.map] at hc
      cases hc

/-- A classifier environment whose decode step raises. -/
def env_decode_fail : ClassifierEnv :=
  ⟨.error "decode failure", fun _ => .error "unused"⟩

/-- A classifier environment whose feature extraction raises. -/
def env_feature_fail : ClassifierEnv :=
  ⟨.ok 10, fun _ => .error "feature extraction exception"⟩

/-- Witness for C6: both concrete failing environments yield the sentinel. -/
theorem classify_failure_spec_witness :
    classifier_classify env_decode_fail = none ∧
    classifier_classify env_feature_fail = none :=
  ⟨(classify_failure_spec env_decode_fail).1 "decode failure" rfl,
   (classify_failure_spec env_feature_fail).2.1 10 rfl
     ⟨0, by norm_num [points_to_check, clip_length],
      "feature extraction exception", rfl⟩⟩

/-- Counter keys are exactly the labels occurring in the decision list. -/
lemma mem_counterKeys {x : Label} : ∀ {l : List Label},
    x ∈ counterKeys l ↔ x ∈ l := by
  intro l
  induction l with
  | nil => simp [counterKeys]
  | cons d rest ih =>
    simp only [counterKeys, List.mem_cons, List.mem_filter, ih, ne_eq,
      decide_not, Bool.not_eq_eq_eq_not, Bool.not_true, decide_eq_false_iff_not]
    by_cases hx : x = d
    · simp [hx]
    · simp [hx]

/-- Counter keys carry no duplicates. -/
lemma counterKeys_nodup : ∀ (l : List Label), (counterKeys l).Nodup := by
  intro l
  induction l with
  | nil => simp [counterKeys]
  | cons d rest ih =>
    rw [counterKeys, List.nodup_cons]
    refine ⟨?_, List.Nodup.filter _ ih⟩
    intro hmem
    have := (List.mem_filter.mp hmem).2
    simp at this

/-- Any label is either `h` or `h.other`. -/
lemma label_eq_or_other (x h : Label) : x = h ∨ x = h.other := by
  cases x <;> cases h <;> simp [Label.other]

/-- `h.other` differs from `h`. -/
lemma other_ne (h : Label) : h.other ≠ h := by
  cases h <;> simp [Label.other]

/-- A duplicate-free list of labels all equal to `c` is `[]` or `[c]`. -/
lemma nodup_all_eq {L : List Label} {c : Label} (hn : L.Nodup)
    (hall : ∀ x ∈ L, x = c) : L = [] ∨ L = [c] := by
  cases L with
  | nil => exact Or.inl rfl
  | cons a L' =>
    right
    have ha : a = c := hall a (List.mem_cons_self a L')
    cases L' with
    | nil => rw [ha]
    | cons b L'' =>
      exfalso
      have hb : b = c := hall b (by simp)
      rw [List.nodup_cons] at hn
      exact hn.1 (by rw [ha, ← hb]; exact List.mem_cons_self b L'')

/-- The non-`h` counter keys form either the empty list or `[h.other]`. -/
lemma filter_counterKeys_other (h : Label) (t : List Label) :
    (counterKeys t).filter (fun k => k ≠ h) = [] ∨
    (counterKeys t).filter (fun k => k ≠ h) = [h.other] := by
  apply nodup_all_eq (List.Nodup.filter _ (counterKeys_nodup t))
  intro x hx
  have hne : x ≠ h := by
    have := (List.mem_filter.mp hx).2
    simpa using this
  rcases label_eq_or_other x h with rfl | hx2
  · exact absurd rfl hne
  · exact hx2

/-- `most_common1` on a one-entry counter picks that entry. -/
lemma most_common1_single (p : Label × Nat) : most_common1 [p] = some p := rfl

/-- `most_common1` on a two-entry counter prefers the first entry unless the
second has a strictly larger count. -/
lemma most_common1_pair (p q : Label × Nat) :
    most_common1 [p, q] = some (if q.2 > p.2 then q else p) := by
  unfold most_common1
  simp only [List.foldl_cons, List.foldl_nil]
  split_ifs with hh <;> rfl

/-- C3: for a non-empty decision list, the final verdict is a label of
maximal vote count, and when "music" and "speech" tie the verdict is the
first label the vote count encounters, i.e. the head of the list. -/
theorem vote_spec (l : List Label) (hne : l ≠ []) :
    ∃ lbl, final_decision l = some lbl ∧
      (∀ x : Label, l.count x ≤ l.count lbl) ∧
      (l.count Label.music = l.count Label.speech → l.head? = some lbl) := by
  obtain ⟨h, t, rfl⟩ := List.exists_cons_of_ne_nil hne
  have hck : counterKeys (h :: t) =
      h :: (counterKeys t).filter (fun k => k ≠ h) := rfl
  rcases filter_counterKeys_other h t with hf | hf
  · -- single counter key: every decision is h
    refine ⟨h, ?_, ?_, fun _ => rfl⟩
    · unfold final_decision vote_count
      rw [hck, hf]
      simp only [List.map_cons, List.map_nil, most_common1_single]
      rfl
    · intro x
      rcases label_eq_or_other x h with rfl | rfl
      · exact le_refl _
      · have hnotmem : h.other ∉ h :: t := by
          intro hmem
          rcases List.mem_cons.mp hmem with heq | hmem'
          · exact other_ne h heq
          · have h1 : h.other ∈ counterKeys t := mem_counterKeys.mpr hmem'
            have h2 : h.other ∈ (counterKeys t).filter (fun k => k ≠ h) := by
              rw [List.mem_filter]
              exact ⟨h1, by simp [other_ne h]⟩
            rw [hf] at h2
            simp at h2
        rw [List.count_eq_zero.mpr hnotmem]
        exact Nat.zero_le _
  · -- two counter keys: h first, h.other second
    by_cases hgt : (h :: t).count h.other > (h :: t).count h
    · refine ⟨h.other, ?_, ?_, fun htie => ?_⟩
      · unfold final_decision vote_count
        rw [hck, hf]
        simp only [List.map_cons, List.map_nil, most_common1_pair]
        rw [if_pos hgt]
        rfl
      · intro x
        rcases label_eq_or_other x h with rfl | rfl
        · exact le_of_lt hgt
        · exact le_refl _
      · exfalso
        have heq : (h :: t).count h = (h :: t).count h.other := by
          cases h
          · simpa [Label.other] using htie
          · simpa [Label.other] using htie.symm
        omega
    · refine ⟨h, ?_, ?_, fun _ => rfl⟩
      · unfold final_decision vote_count
        rw [hck, hf]
        simp only [List.map_cons, List.map_nil, most_common1_pair]
        rw [if_neg hgt]
        rfl
      · intro x
        rcases label_eq_or_other x h with rfl | rfl
        · exact le_refl _
        · exact not_lt.mp hgt

/-- Witness for C3: on the tied list [music, speech] the verdict is the
first-encountered label, music. -/
theorem vote_spec_witness :
    final_decision [Label.music, Label.speech] = some Label.music := by
  obtain ⟨lbl, hfd, -, htie⟩ :=
    vote_spec [Label.music, Label.speech] (by decide)
  have hhead := htie (by decide)
  have hlbl : lbl = Label.music := (Option.some.inj hhead).symm
  rw [hfd, hlbl]

/-- C2: whenever a pipeline stage raises an unrecoverable exception, the
persisted metadata record for the job has status "failed" and carries the
job id, the error message and a timestamp, and the job's progress record
holds the sentinel error percent -1.  Stated for each fallible stage of
each processor: stem separation and audio analysis for music, audio
loading and audio writing for speech. -/
theorem failure_metadata_spec (menv : MusicEnv) (senv : SpeechEnv)
    (jid : String) (mst : MusicState) (sst : SpeechState) :
    (∀ e, menv.sources = .error e →
      (music_process menv jid mst).1.status = "failed" ∧
      (music_process menv jid mst).1.job_id = jid ∧
      (music_process menv jid mst).1.error = some e ∧
      (music_process menv jid mst).1.processed_at = menv.time ∧
      dict_get jid (music_process menv jid mst).2.metadata_store =
        some (music_process menv jid mst).1 ∧
      (music_get_progress (music_process menv jid mst).2 jid).map
        ProgressRecord.percent = some (-1)) ∧
    (∀ e srcs, menv.sources = .ok srcs → menv.analyzed = .error e →
      (music_process menv jid mst).1.status = "failed" ∧
      (music_process menv jid mst).1.job_id = jid ∧
      (music_process menv jid mst).1.error = some e ∧
      (music_process menv jid mst).1.processed_at = menv.time ∧
      dict_get jid (music_process menv jid mst).2.metadata_store =
        some (music_process menv jid mst).1 ∧
      (music_get_progress (music_process menv jid mst).2 jid).map
        ProgressRecord.percent = some (-1)) ∧
    (∀ e, senv.loaded = .error e →
      (speech_process senv jid sst).1.status = "failed" ∧
      (speech_process senv jid sst).1.job_id = jid ∧
      (speech_process senv jid sst).1.error = some e ∧
      (speech_process senv jid sst).1.processed_at = senv.time ∧
      dict_get jid (speech_process senv jid sst).2.metadata_store =
        some (speech_process senv jid sst).1 ∧
      (speech_get_progress (speech_process senv jid sst).2 jid).map
        ProgressRecord.percent = some (-1)) ∧
    (∀ e audio, senv.loaded = .ok audio → senv.write_ok = .error e →
      (speech_process senv jid sst).1.status = "failed" ∧
      (speech_process senv jid sst).1.job_id = jid ∧
      (speech_process senv jid sst).1.error = some e ∧
      (speech_process senv jid sst).1.processed_at = senv.time ∧
      dict_get jid (speech_process senv jid sst).2.metadata_store =
        some (speech_process senv jid sst).1 ∧
      (speech_get_progress (speech_process senv jid sst).2 jid).map
        ProgressRecord.percent = some (-1)) := by
  refine ⟨fun e he => ?_, fun e srcs hs ha => ?_, fun e he => ?_,
    fun e audio hl hw => ?_⟩
  · simp [music_process, he, music_fail_handler, music_update_progress,
      music_save_metadata, music_get_progress, dict_get_set]
  · simp [music_process, hs, ha, music_fail_handler, music_update_progress,
      music_save_metadata, music_get_progress, dict_get_set]
  · simp [speech_process, he, speech_fail_handler, speech_update_progress,
      speech_save_metadata, speech_get_progress, dict_get_set]
  · simp [speech_process, hl, hw, speech_fail_handler,
      speech_update_progress, speech_save_metadata, speech_get_progress,
      dict_get_set]

/-- Concrete failing music environment. -/
def menv_fail : MusicEnv := ⟨.error "boom", .error "w", .error "a", 7⟩

/-- Concrete failing speech environment. -/
def senv_fail : SpeechEnv :=
  ⟨.error "boom", 0, .error "d", .error "t", .error "s", 7⟩

/-- Empty music-processor state. -/
def mst_empty : MusicState := ⟨[], []⟩

/-- Empty speech-processor state. -/
def sst_empty : SpeechState := ⟨[], [], []⟩

/-- Witness for C2: a concrete failing run of each processor persists the
failed record and sets the -1 progress sentinel. -/
theorem failure_metadata_spec_witness :
    ((music_process menv_fail "j1" mst_empty).1.status = "failed" ∧
     (music_process menv_fail "j1" mst_empty).1.job_id = "j1" ∧
     (music_process menv_fail "j1" mst_empty).1.error = some "boom" ∧
     (music_process menv_fail "j1" mst_empty).1.processed_at = 7 ∧
     dict_get "j1" (music_process menv_fail "j1" mst_empty).2.metadata_store =
       some (music_process menv_fail "j1" mst_empty).1 ∧
     (music_get_progress (music_process menv_fail "j1" mst_empty).2 "j1").map
       ProgressRecord.percent = some (-1)) ∧
    ((speech_process senv_fail "j1" sst_empty).1.status = "failed" ∧
     (speech_process senv_fail "j1" sst_empty).1.job_id = "j1" ∧
     (speech_process senv_fail "j1" sst_empty).1.error = some "boom" ∧
     (speech_process senv_fail "j1" sst_empty).1.processed_at = 7 ∧
     dict_get "j1"
       (speech_process senv_fail "j1" sst_empty).2.metadata_store =
       some (speech_process senv_fail "j1" sst_empty).1 ∧
     (speech_get_progress (speech_process senv_fail "j1" sst_empty).2
       "j1").map ProgressRecord.percent = some (-1)) :=
  ⟨(failure_metadata_spec menv_fail senv_fail "j1" mst_empty sst_empty).1
     "boom" rfl,
   (failure_metadata_spec menv_fail senv_fail "j1" mst_empty
     sst_empty).2.2.1 "boom" rfl⟩

/-- C7 counterexample: a failed speech job does NOT have its progress
record deleted — `get_progress` still returns a record (holding the -1
sentinel), refuting deletion on every terminal status. -/
theorem progress_terminal_counterexample :
    (speech_process senv_fail "j1" sst_empty).1.status = "failed" ∧
    speech_get_progress (speech_process senv_fail "j1" sst_empty).2 "j1" ≠
      none := by
  constructor
  · rfl
  · simp [speech_process, senv_fail, sst_empty, speech_fail_handler,
      speech_update_progress, speech_save_metadata, speech_get_progress,
      dict_get_set]

/-- C7 (amended): on successful completion the progress record is deleted
(`get_progress` returns none); on failure it is retained with the sentinel
percent -1.  Stated for both processors. -/
theorem progress_lifecycle_spec (menv : MusicEnv) (senv : SpeechEnv)
    (jid : String) (mst : MusicState) (sst : SpeechState) :
    (∀ srcs an, menv.sources = .ok srcs → menv.analyzed = .ok an →
      (music_process menv jid mst).1.status = "completed" ∧
      music_get_progress (music_process menv jid mst).2 jid = none) ∧
    (∀ audio, senv.loaded = .ok audio → senv.write_ok = .ok () →
      (speech_process senv jid sst).1.status = "completed" ∧
      speech_get_progress (speech_process senv jid sst).2 jid = none) ∧
    (∀ e, menv.sources = .error e →
      (music_process menv jid mst).1.status = "failed" ∧
      (music_get_progress (music_process menv jid mst).2 jid).map
        ProgressRecord.percent = some (-1)) ∧
    (∀ e, senv.loaded = .error e →
      (speech_process senv jid sst).1.status = "failed" ∧
      (speech_get_progress (speech_process senv jid sst).2 jid).map
        ProgressRecord.percent = some (-1)) := by
  refine ⟨fun srcs an hs ha => ?_, fun audio hl hw => ?_,
    fun e he => ?_, fun e he => ?_⟩
  · simp [music_process, hs, ha, music_update_progress, music_save_metadata,
      music_clear_progress, music_get_progress, dict_get_del]
  · simp [speech_process, hl, hw, speech_update_progress,
      speech_save_metadata, speech_clear_progress, speech_get_progress,
      dict_get_del]
  · simp [music_process, he, music_fail_handler, music_update_progress,
      music_save_metadata, music_get_progress, dict_get_set]
  · simp [speech_process, he, speech_fail_handler, speech_update_progress,
      speech_save_metadata, speech_get_progress, dict_get_set]

/-- Concrete completing music environment (six stem tensors). -/
def menv_ok : MusicEnv :=
  ⟨.ok [[1], [0], [0], [0], [0], [0]], .ok ⟨"la la", []⟩,
   .ok ⟨"C major", 120, "3:00", 44100⟩, 7⟩

/-- Concrete completing speech environment. -/
def senv_ok : SpeechEnv := ⟨.ok [1], 60, .ok [1], .ok ⟨"hi", [], 1⟩, .ok (), 7⟩

/-- Witness for C7 (amended): completed runs of both processors clear
progress; a failed run keeps the -1 sentinel. -/
theorem progress_lifecycle_spec_witness :
    ((music_process menv_ok "j2" mst_empty).1.status = "completed" ∧
     music_get_progress (music_process menv_ok "j2" mst_empty).2 "j2" =
       none) ∧
    ((speech_process senv_ok "j2" sst_empty).1.status = "completed" ∧
     speech_get_progress (speech_process senv_ok "j2" sst_empty).2 "j2" =
       none) ∧
    ((speech_process senv_fail "j2" sst_empty).1.status = "failed" ∧
     (speech_get_progress (speech_process senv_fail "j2" sst_empty).2
       "j2").map ProgressRecord.percent = some (-1)) :=
  ⟨(progress_lifecycle_spec menv_ok senv_ok "j2" mst_empty sst_empty).1
     [[1], [0], [0], [0], [0], [0]] ⟨"C major", 120, "3:00", 44100⟩ rfl rfl,
   (progress_lifecycle_spec menv_ok senv_ok "j2" mst_empty sst_empty).2.1
     [1] rfl rfl,
   (progress_lifecycle_spec menv_ok senv_fail "j2" mst_empty
     sst_empty).2.2.2 "boom" rfl⟩

/-- A speech environment whose noise-suppression engine raises. -/
def senv_nr : SpeechEnv :=
  ⟨.ok [1/2], 10, .error "df fail", .ok ⟨"hi", [], 1⟩, .ok (), 3⟩

/-- C5 counterexample: with suppression forced to raise on input [1/2],
the job completes but the saved clean audio is NOT equal to the
pre-suppression input — `save_audio` peak-normalises it to [1]. -/
theorem noise_fallback_counterexample :
    (speech_process senv_nr "j3" sst_empty).1.status = "completed" ∧
    dict_get "j3" (speech_process senv_nr "j3" sst_empty).2.saved_audio ≠
      some [(1 : ℚ)/2] := by
  have hnorm : normalize_audio [(1 : ℚ)/2] = [1] := by
    have hm : np_max_abs [(1 : ℚ)/2] = 1/2 := by
      simp [np_max_abs]
    simp only [normalize_audio, List.map_cons, List.map_nil, hm]
    norm_num
  have hsa : dict_get "j3"
      (speech_process senv_nr "j3" sst_empty).2.saved_audio =
      some (normalize_audio [(1 : ℚ)/2]) := by
    simp [speech_process, senv_nr, sst_empty, reduce_noise,
      speech_update_progress, speech_save_metadata, speech_clear_progress,
      dict_get_set]
  refine ⟨rfl, ?_⟩
  rw [hsa, hnorm]
  simp only [ne_eq, Option.some.injEq, List.cons.injEq, and_true]
  norm_num

/-- C5 (amended): when noise suppression raises, the stage falls back to
the original audio, the job completes, and the saved clean audio equals
the pre-suppression input peak-normalised (each sample divided by the
maximum absolute amplitude). -/
theorem noise_fallback_spec (env : SpeechEnv) (jid : String)
    (st : SpeechState) (audio : List ℚ) (e : String)
    (hload : env.loaded = .ok audio)
    (hsup : env.suppressed = .error e)
    (hwrite : env.write_ok = .ok ()) :
    reduce_noise env audio = audio ∧
    (speech_process env jid st).1.status = "completed" ∧
    dict_get jid (speech_process env jid st).2.saved_audio =
      some (normalize_audio audio) := by
  refine ⟨?_, ?_, ?_⟩
  · simp [reduce_noise, hsup]
  · simp [speech_process, hload, hwrite, speech_update_progress,
      speech_save_metadata, speech_clear_progress]
  · simp [speech_process, hload, hwrite, reduce_noise, hsup,
      speech_update_progress, speech_save_metadata, speech_clear_progress,
      dict_get_set]

/-- Witness for C5 (amended) on the concrete suppression-failure run. -/
theorem noise_fallback_spec_witness :
    reduce_noise senv_nr [(1 : ℚ)/2] = [(1 : ℚ)/2] ∧
    (speech_process senv_nr "j3" sst_empty).1.status = "completed" ∧
    dict_get "j3" (speech_process senv_nr "j3" sst_empty).2.saved_audio =
      some (normalize_audio [(1 : ℚ)/2]) :=
  noise_fallback_spec senv_nr "j3" sst_empty [(1 : ℚ)/2] "df fail"
    rfl rfl rfl

/-- C10: in the embedding both `process` functions are total — every run
returns a metadata record in one of the two terminal shapes — so the
background wrappers' exception branches are unreachable: the in-memory
registry entry is always set to "completed", and a stage failure is
visible only through the persisted metadata, which then says "failed". -/
theorem background_wrapper_spec (menv : MusicEnv) (senv : SpeechEnv)
    (jid : String) (app : AppState) :
    ((music_process menv jid app.music_st).1.status = "completed" ∨
     (music_process menv jid app.music_st).1.status = "failed") ∧
    ((speech_process senv jid app.speech_st).1.status = "completed" ∨
     (speech_process senv jid app.speech_st).1.status = "failed") ∧
    (dict_get jid
      (process_music_background menv jid app).processing_jobs =
      some ⟨"completed", "music", none⟩) ∧
    (dict_get jid
      (process_speech_background senv jid app).processing_jobs =
      some ⟨"completed", "speech", none⟩) ∧
    (∀ e, menv.sources = .error e →
      (dict_get jid (process_music_background menv jid
        app).music_st.metadata_store).map MusicMeta.status =
        some "failed") ∧
    (∀ e, senv.loaded = .error e →
      (dict_get jid (process_speech_background senv jid
        app).speech_st.metadata_store).map SpeechMeta.status =
        some "failed") := by
  refine ⟨?_, ?_, ?_, ?_, fun e he => ?_, fun e he => ?_⟩
  · rcases hs : menv.sources with e | srcs
    · right
      simp [music_process, hs, music_fail_handler, music_update_progress,
        music_save_metadata]
    · rcases ha : menv.analyzed with e | an
      · right
        simp [music_process, hs, ha, music_fail_handler,
          music_update_progress, music_save_metadata]
      · left
        simp [music_process, hs, ha, music_update_progress,
          music_save_metadata, music_clear_progress]
  · rcases hl : senv.loaded with e | audio
    · right
      simp [speech_process, hl, speech_fail_handler,
        speech_update_progress, speech_save_metadata]
    · rcases hw : senv.write_ok with e | u
      · right
        simp [speech_process, hl, hw, speech_fail_handler,
          speech_update_progress, speech_save_metadata]
      · left
        simp [speech_process, hl, hw, speech_update_progress,
          speech_save_metadata, speech_clear_progress]
  · simp [process_music_background, dict_get_set]
  · simp [process_speech_background, dict_get_set]
  · simp [process_music_background, music_process, he, music_fail_handler,
      music_update_progress, music_save_metadata, dict_get_set]
  · simp [process_speech_background, speech_process, he,
      speech_fail_handler, speech_update_progress, speech_save_metadata,
      dict_get_set]

/-- Empty app state. -/
def app_empty : AppState := ⟨[], mst_empty, sst_empty⟩

/-- Witness for C10: with both pipelines failing at their first stage, the
in-memory registry still records "completed" while the persisted metadata
records "failed". -/
theorem background_wrapper_spec_witness :
    dict_get "j4"
      (process_music_background menv_fail "j4" app_empty).processing_jobs =
      some ⟨"completed", "music", none⟩ ∧
    (dict_get "j4" (process_music_background menv_fail "j4"
      app_empty).music_st.metadata_store).map MusicMeta.status =
      some "failed" ∧
    (dict_get "j4" (process_speech_background senv_fail "j4"
      app_empty).speech_st.metadata_store).map SpeechMeta.status =
      some "failed" :=
  ⟨(background_wrapper_spec menv_fail senv_fail "j4" app_empty).2.2.1,
   (background_wrapper_spec menv_fail senv_fail "j4"
     app_empty).2.2.2.2.1 "boom" rfl,
   (background_wrapper_spec menv_fail senv_fail "j4"
     app_empty).2.2.2.2.2 "boom" rfl⟩

end Jexi
